import Mathlib

/-!
Shallow embedding of the HITL (human-in-the-loop) approval gateway of the
Windows-Use repository, together with theorems settling the frozen claims.

Source files embedded:
  * src/windows_use/agent/hitl/views.py    (data model)
  * src/windows_use/agent/hitl/service.py  (classifier, backends, gateway)
  * src/windows_use/agent/registry/service.py (execution gate)

Modelling conventions:
  * Python strings are Lean `String`, the parameter dict is a
    `List (String × String)` (only its printed form is ever used by the
    code, never its values' types).
  * `time.time()` is modelled by an explicit timestamp argument `t : Nat`
    supplied by the environment; no claim depends on its value.
  * Operator console input (rich's Prompt.ask plus KeyboardInterrupt /
    EOFError) is modelled by a list of `PromptEvent`s consumed in order.
  * A Python function that may raise is modelled with `Except String`.
-/

namespace WindowsUse

/-- views.py: `class ApprovalResult(str, Enum)` — approval decision outcomes. -/
inductive ApprovalResult where
  | APPROVED
  | REJECTED
  | TIMEOUT
deriving DecidableEq, Repr

/-- views.py: `class ApprovalBackend(str, Enum)` — available approval backends. -/
inductive ApprovalBackend where
  | CLI
  | SLACK
  | WEBHOOK
  | AUTO_APPROVE
deriving DecidableEq, Repr

/-- views.py: `class ApprovalRequest(BaseModel)` — request for human approval
of a tool execution.  Field order follows the source. -/
structure ApprovalRequest where
  tool_name : String
  tool_description : String
  parameters : List (String × String)
  step_number : Nat
  context : String
  risk_level : String
deriving DecidableEq, Repr

/-- views.py: `class ApprovalResponse(BaseModel)` — response from an approval
backend. -/
structure ApprovalResponse where
  result : ApprovalResult
  message : String
  approved_by : String
  timestamp : Nat
deriving DecidableEq, Repr

/-! ## Risk classifier (service.py lines 23–65) -/

/-- service.py: `CRITICAL_RISK_TOOLS`. -/
def CRITICAL_RISK_TOOLS : List String := ["shell_tool"]

/-- service.py: `HIGH_RISK_TOOLS`. -/
def HIGH_RISK_TOOLS : List String := ["app_tool", "memory_tool"]

/-- service.py: `MEDIUM_RISK_TOOLS`. -/
def MEDIUM_RISK_TOOLS : List String :=
  ["type_tool", "click_tool", "drag_tool", "shortcut_tool", "multi_edit_tool"]

/-- service.py: `LOW_RISK_TOOLS` (declared in the source but never consulted
by `get_tool_risk_level`). -/
def LOW_RISK_TOOLS : List String :=
  ["scroll_tool", "move_tool", "wait_tool", "scrape_tool", "done_tool"]

/-- service.py: `get_tool_risk_level(tool_name)` — membership is tested in
the order critical → high → medium, with default `"low"`. -/
def get_tool_risk_level (tool_name : String) : String :=
  if tool_name ∈ CRITICAL_RISK_TOOLS then "critical"
  else if tool_name ∈ HIGH_RISK_TOOLS then "high"
  else if tool_name ∈ MEDIUM_RISK_TOOLS then "medium"
  else "low"

/-! ## CLI approval backend (service.py lines 68–161)

The operator's console is modelled as a list of `PromptEvent`s:
`enter` is an empty line (rich's `Prompt.ask` then returns the configured
default, which the source sets to `"y"`); `text s` is a typed line; and
`interrupt` is a KeyboardInterrupt.  An exhausted list is end-of-input
(EOFError).  `Prompt.ask` re-prompts on input outside its `choices`
(`["y", "n", "d"]`), which consumes the event and asks again. -/

inductive PromptEvent where
  | enter
  | text (s : String)
  | interrupt
deriving DecidableEq, Repr

/-- service.py: `CLIApprovalBackend.request_approval` (lines 79–161).
The panel display is pure output and is not modelled.  After `Prompt.ask`
validates the input against `["y", "n", "d"]` (empty input yields the
default `"y"`), the source returns APPROVED on `"y"`, recurses after
printing the full parameters on `"d"`, and returns REJECTED otherwise
(i.e. on `"n"`); a KeyboardInterrupt or EOFError anywhere in the wait is
caught and yields REJECTED / "Interrupted by user". -/
def CLIApprovalBackend.request_approval (request : ApprovalRequest) (t : Nat) :
    List PromptEvent → ApprovalResponse
  | [] =>
    -- stdin exhausted: Prompt.ask raises EOFError, caught by the handler
    ⟨ApprovalResult.REJECTED, "Interrupted by user", "human", t⟩
  | PromptEvent.interrupt :: _ =>
    -- KeyboardInterrupt, caught by the handler
    ⟨ApprovalResult.REJECTED, "Interrupted by user", "human", t⟩
  | PromptEvent.enter :: _ =>
    -- Prompt.ask returns the default "y"; `choice.lower() == "y"` holds
    ⟨ApprovalResult.APPROVED, "Approved via CLI", "human", t⟩
  | PromptEvent.text s :: rest =>
    if s = "y" ∨ s = "n" ∨ s = "d" then
      -- Prompt.ask accepted the input as one of its choices
      if s = "y" then
        ⟨ApprovalResult.APPROVED, "Approved via CLI", "human", t⟩
      else if s = "d" then
        -- show full parameters and ask again (self.request_approval(request))
        CLIApprovalBackend.request_approval request t rest
      else
        ⟨ApprovalResult.REJECTED, "Rejected via CLI", "human", t⟩
    else
      -- Prompt.ask rejects input outside its choices and asks again
      CLIApprovalBackend.request_approval request t rest

/-! ## Slack approval backend (service.py lines 164–307)

The environment is modelled by two flags: `requestsAvailable` (the
`import requests` at the top of the method succeeds) and `sendOk`
(`requests.post` + `raise_for_status` succeed).  The body of the Slack
message is pure output and is not modelled; `webhook_url` and
`slack_token` are carried because the source branches on the token. -/

/-- service.py: `SlackApprovalBackend.request_approval` (lines 181–307).
On import failure it returns REJECTED by itself; otherwise, whether the
webhook send succeeds (with or without a bot token) or raises, the verdict
is produced by `CLIApprovalBackend().request_approval(request)`. -/
def SlackApprovalBackend.request_approval (webhook_url : String)
    (slack_token : Option String) (requestsAvailable sendOk : Bool)
    (request : ApprovalRequest) (t : Nat) (events : List PromptEvent) :
    ApprovalResponse :=
  if requestsAvailable = false then
    ⟨ApprovalResult.REJECTED, "Slack integration not available", "system", t⟩
  else if sendOk then
    if slack_token.isSome then
      -- interactive Slack approval not implemented: fall back to CLI
      CLIApprovalBackend.request_approval request t events
    else
      -- no interactive buttons: fall back to CLI
      CLIApprovalBackend.request_approval request t events
  else
    -- `except Exception`: log the send failure and fall back to CLI
    CLIApprovalBackend.request_approval request t events

/-! ## HITL approval service (service.py lines 310–438)

The service is modelled by the fields its methods read.  `approver` stands
for `self.approver.request_approval`, the decide method of the backend
object chosen in `__init__` (CLI or Slack, with the environment already
applied); in the source, `self.approver` is `None` exactly when the
backend variant is AUTO_APPROVE, and on that variant `request_approval`
returns before ever touching `self.approver`, so a total function is a
faithful model.  `custom_approver` may raise, hence `Except String`. -/

structure HITLApprovalService where
  backend : ApprovalBackend
  require_approval_for : Option (List String)
  min_risk_level : String
  custom_approver : Option (ApprovalRequest → Except String ApprovalResponse)
  approver : ApprovalRequest → ApprovalResponse

/-- service.py: the `risk_hierarchy` dict of `requires_approval`
(line 366): `{"critical": 4, "high": 3, "medium": 2, "low": 1}`, looked up
with `dict.get` (hence `Option Nat`). -/
def risk_hierarchy (s : String) : Option Nat :=
  if s = "critical" then some 4
  else if s = "high" then some 3
  else if s = "medium" then some 2
  else if s = "low" then some 1
  else none

/-- service.py: `HITLApprovalService.requires_approval` (lines 351–370).
With an explicit `require_approval_for` set, membership decides; otherwise
`risk_hierarchy.get(min_risk_level, 3) ≤ risk_hierarchy.get(risk_level, 2)`. -/
def HITLApprovalService.requires_approval (svc : HITLApprovalService)
    (tool_name risk_level : String) : Bool :=
  match svc.require_approval_for with
  | some required => required.contains tool_name
  | none =>
    let min_level := (risk_hierarchy svc.min_risk_level).getD 3
    let tool_level := (risk_hierarchy risk_level).getD 2
    decide (tool_level ≥ min_level)

/-- service.py: `HITLApprovalService.request_approval` (lines 372–438).
The source's `if not self.requires_approval(...)` early return is written
with its branches swapped; everything else is in source order. -/
def HITLApprovalService.request_approval (svc : HITLApprovalService)
    (tool_name tool_description : String) (parameters : List (String × String))
    (step_number : Nat) (context : String) (t : Nat) : ApprovalResponse :=
  -- auto-approve if backend is AUTO_APPROVE
  if svc.backend = ApprovalBackend.AUTO_APPROVE then
    ⟨ApprovalResult.APPROVED, "Auto-approved", "system", t⟩
  else
    -- determine risk level
    let risk_level := get_tool_risk_level tool_name
    -- check if approval is required
    if svc.requires_approval tool_name risk_level then
      -- build approval request
      let request : ApprovalRequest :=
        ⟨tool_name, tool_description, parameters, step_number, context, risk_level⟩
      -- use custom approver if provided
      match svc.custom_approver with
      | some f =>
        match f request with
        | Except.ok resp => resp
        | Except.error _ =>
          -- log "Custom approver failed ... falling back to default"
          svc.approver request
      | none => svc.approver request
    else
      ⟨ApprovalResult.APPROVED, "Auto-approved (low risk)", "system", t⟩

/-- Instrumentation: one entry per observable step `request_approval`
performs, in execution order. -/
inductive GateEvent where
  | classify (tool_name risk_level : String)
  | policyCheck (required : Bool)
  | customCall
  | backendCall
deriving DecidableEq, Repr

/-- `HITLApprovalService.request_approval` with its control flow made
observable: same branches as `request_approval`, returning additionally
the ordered list of steps taken (risk classification, policy evaluation,
custom-approver invocation, backend invocation).
`request_approvalTrace_fst` proves the verdict component identical to
`request_approval`. -/
def HITLApprovalService.request_approvalTrace (svc : HITLApprovalService)
    (tool_name tool_description : String) (parameters : List (String × String))
    (step_number : Nat) (context : String) (t : Nat) :
    ApprovalResponse × List GateEvent :=
  if svc.backend = ApprovalBackend.AUTO_APPROVE then
    (⟨ApprovalResult.APPROVED, "Auto-approved", "system", t⟩, [])
  else
    let risk_level := get_tool_risk_level tool_name
    let ev0 := GateEvent.classify tool_name risk_level
    if svc.requires_approval tool_name risk_level then
      let request : ApprovalRequest :=
        ⟨tool_name, tool_description, parameters, step_number, context, risk_level⟩
      match svc.custom_approver with
      | some f =>
        match f request with
        | Except.ok resp =>
          (resp, [ev0, GateEvent.policyCheck true, GateEvent.customCall])
        | Except.error _ =>
          (svc.approver request,
            [ev0, GateEvent.policyCheck true, GateEvent.customCall,
              GateEvent.backendCall])
      | none =>
        (svc.approver request,
          [ev0, GateEvent.policyCheck true, GateEvent.backendCall])
    else
      (⟨ApprovalResult.APPROVED, "Auto-approved (low risk)", "system", t⟩,
        [ev0, GateEvent.policyCheck false])

/-- The instrumented gateway returns the same verdict as the plain one. -/
theorem request_approvalTrace_fst (svc : HITLApprovalService)
    (tool_name tool_description : String) (parameters : List (String × String))
    (step_number : Nat) (context : String) (t : Nat) :
    (svc.request_approvalTrace tool_name tool_description parameters
        step_number context t).1 =
      svc.request_approval tool_name tool_description parameters
        step_number context t := by
  unfold HITLApprovalService.request_approvalTrace
    HITLApprovalService.request_approval
  dsimp only
  repeat' split
  all_goals rfl

/-! ## Execution gate (registry/service.py lines 13–80) -/

/-- registry/views.py: `ToolResult`. -/
structure ToolResult where
  is_success : Bool
  content : Option String
  error : Option String
deriving DecidableEq, Repr

/-- registry/service.py: a registered tool.  `run` models
`tool.model.model_validate(kwargs)` followed by `tool.invoke(...)`, both
executed inside the same `try`: a raise from either is an `Except.error`
whose payload is `str(error)`. -/
structure Tool where
  name : String
  description : String
  run : List (String × String) → Except String String

/-- registry/service.py: `Registry` — `tools_registry` is the dict
`{tool.name: tool for tool in self.tools}`, so a later tool with the same
name shadows an earlier one; lookup is modelled by searching the reversed
list. -/
structure Registry where
  tools : List Tool
  hitl_service : Option HITLApprovalService

/-- The `try: ... tool.invoke ...` tail of `Registry.execute`
(lines 75–80). -/
def runTool (tool : Tool) (kwargs : List (String × String)) : ToolResult :=
  match tool.run kwargs with
  | Except.ok content => ⟨true, some content, none⟩
  | Except.error err => ⟨false, none, some err⟩

/-- registry/service.py: `Registry.execute` (lines 36–80).  The unused
`desktop` argument is dropped; `t` is the ambient timestamp passed through
to the HITL service. -/
def Registry.execute (reg : Registry) (tool_name : String)
    (kwargs : List (String × String)) (step_number : Nat) (t : Nat) :
    ToolResult :=
  match reg.tools.reverse.find? (fun tool => tool.name == tool_name) with
  | none => ⟨false, none, some ("Tool '" ++ tool_name ++ "' not found.")⟩
  | some tool =>
    match reg.hitl_service with
    | some svc =>
      let approval_response := svc.request_approval tool_name tool.description
        kwargs step_number ("Agent requesting to execute " ++ tool_name) t
      if approval_response.result = ApprovalResult.REJECTED then
        ⟨false, none,
          some ("Tool execution rejected by human approval: " ++
            approval_response.message)⟩
      else if approval_response.result = ApprovalResult.TIMEOUT then
        ⟨false, none, some "Tool execution approval timed out"⟩
      else
        runTool tool kwargs
    | none => runTool tool kwargs

/-! ## Auxiliary definitions used by the claim theorems -/

/-- The four risk-tier names, in ascending order of severity. -/
def riskTiers : List String := ["low", "medium", "high", "critical"]

/-- Rank of a tier under the total order low < medium < high < critical
(spec §3); only ever applied to members of `riskTiers`. -/
def tierRank (s : String) : Nat :=
  if s = "low" then 1
  else if s = "medium" then 2
  else if s = "high" then 3
  else 4

/-- An operator input on which the CLI prompt does not resolve the
decision: a KeyboardInterrupt, or a typed line that is neither the affirm
choice "y" nor the decline choice "n" (so either the show-details choice
"d" or input that Prompt.ask re-asks about). -/
def nondecisive (e : PromptEvent) : Bool :=
  match e with
  | PromptEvent.enter => false
  | PromptEvent.interrupt => true
  | PromptEvent.text s => (s != "y") && (s != "n")

/-! ## Claim theorems -/

/-- C8: `get_tool_risk_level` is a deterministic total function on
strings: names in the critical static set map to "critical", names in the
high set to "high", names in the medium set to "medium" (membership tested
in the order critical → high → medium), and every other string — names in
the low static set as well as names in none of the sets — maps to "low". -/
theorem get_tool_risk_level_cases (name : String) :
    (name ∈ CRITICAL_RISK_TOOLS → get_tool_risk_level name = "critical") ∧
    (name ∈ HIGH_RISK_TOOLS → get_tool_risk_level name = "high") ∧
    (name ∈ MEDIUM_RISK_TOOLS → get_tool_risk_level name = "medium") ∧
    (name ∈ LOW_RISK_TOOLS → get_tool_risk_level name = "low") ∧
    (name ∉ CRITICAL_RISK_TOOLS → name ∉ HIGH_RISK_TOOLS →
      name ∉ MEDIUM_RISK_TOOLS → get_tool_risk_level name = "low") := by
  refine ⟨?_, ?_, ?_, ?_, ?_⟩
  · intro h
    simp only [CRITICAL_RISK_TOOLS, List.mem_singleton] at h
    subst h; rfl
  · intro h
    simp only [HIGH_RISK_TOOLS, List.mem_cons, List.mem_singleton,
      List.not_mem_nil, or_false] at h
    rcases h with rfl | rfl <;> rfl
  · intro h
    simp only [MEDIUM_RISK_TOOLS, List.mem_cons, List.mem_singleton,
      List.not_mem_nil, or_false] at h
    rcases h with rfl | rfl | rfl | rfl | rfl <;> rfl
  · intro h
    simp only [LOW_RISK_TOOLS, List.mem_cons, List.mem_singleton,
      List.not_mem_nil, or_false] at h
    rcases h with rfl | rfl | rfl | rfl | rfl <;> rfl
  · intro h1 h2 h3
    simp [get_tool_risk_level, h1, h2, h3]

/-- Witness for C8 at concrete tool names, one per static set plus an
unknown name. -/
theorem get_tool_risk_level_cases_witness :
    get_tool_risk_level "shell_tool" = "critical" ∧
    get_tool_risk_level "app_tool" = "high" ∧
    get_tool_risk_level "click_tool" = "medium" ∧
    get_tool_risk_level "scroll_tool" = "low" ∧
    get_tool_risk_level "unknown_tool" = "low" :=
  ⟨(get_tool_risk_level_cases "shell_tool").1 (by decide),
   (get_tool_risk_level_cases "app_tool").2.1 (by decide),
   (get_tool_risk_level_cases "click_tool").2.2.1 (by decide),
   (get_tool_risk_level_cases "scroll_tool").2.2.2.1 (by decide),
   (get_tool_risk_level_cases "unknown_tool").2.2.2.2 (by decide) (by decide)
     (by decide)⟩

/-- C6: with no explicit required-set configured, `requires_approval`
returns true iff `rank(tier) ≥ rank(threshold)` under the total order
low < medium < high < critical, for all sixteen tier/threshold pairs and
every tool name. -/
theorem requires_approval_threshold (b : ApprovalBackend)
    (ca : Option (ApprovalRequest → Except String ApprovalResponse))
    (ap : ApprovalRequest → ApprovalResponse) (tool_name T H : String)
    (hT : T ∈ riskTiers) (hH : H ∈ riskTiers) :
    HITLApprovalService.requires_approval ⟨b, none, H, ca, ap⟩ tool_name T =
      decide (tierRank T ≥ tierRank H) := by
  simp only [riskTiers, List.mem_cons, List.mem_singleton,
    List.not_mem_nil, or_false] at hT hH
  rcases hT with rfl | rfl | rfl | rfl <;>
    rcases hH with rfl | rfl | rfl | rfl <;> rfl

/-- Witness for C6 at tier "critical" against threshold "high". -/
theorem requires_approval_threshold_witness :
    HITLApprovalService.requires_approval
        ⟨ApprovalBackend.CLI, none, "high", none,
          fun _ => ⟨ApprovalResult.APPROVED, "", "", 0⟩⟩
        "shell_tool" "critical" =
      decide (tierRank "critical" ≥ tierRank "high") :=
  requires_approval_threshold ApprovalBackend.CLI none
    (fun _ => ⟨ApprovalResult.APPROVED, "", "", 0⟩) "shell_tool"
    "critical" "high" (by decide) (by decide)

/-- C7: with an explicit required-set configured, `requires_approval` is
set membership of the tool name and nothing else: the risk-tier argument
has no influence, so the result is identical for any two tiers, and a
critical-tier tool whose name is absent from the set does not require
consultation. -/
theorem requires_approval_explicit_set (b : ApprovalBackend)
    (req_set : List String) (mrl : String)
    (ca : Option (ApprovalRequest → Except String ApprovalResponse))
    (ap : ApprovalRequest → ApprovalResponse)
    (tool_name tier tier' : String) :
    (HITLApprovalService.requires_approval ⟨b, some req_set, mrl, ca, ap⟩
        tool_name tier = req_set.contains tool_name) ∧
    (HITLApprovalService.requires_approval ⟨b, some req_set, mrl, ca, ap⟩
        tool_name tier = true ↔ tool_name ∈ req_set) ∧
    (HITLApprovalService.requires_approval ⟨b, some req_set, mrl, ca, ap⟩
        tool_name tier =
      HITLApprovalService.requires_approval ⟨b, some req_set, mrl, ca, ap⟩
        tool_name tier') := by
  refine ⟨rfl, ?_, rfl⟩
  simp [HITLApprovalService.requires_approval]

/-- C10: at the CLI prompt an empty operator line is the affirm default —
`Prompt.ask` is configured with default "y", so pressing Enter yields an
APPROVED verdict attributed to "human". -/
theorem cli_empty_input_default_approves (request : ApprovalRequest)
    (t : Nat) (rest : List PromptEvent) :
    CLIApprovalBackend.request_approval request t
        (PromptEvent.enter :: rest) =
      ⟨ApprovalResult.APPROVED, "Approved via CLI", "human", t⟩ := rfl

/-- C3: if the CLI backend's wait is interrupted — KeyboardInterrupt or
end-of-input, possibly after any run of show-details or invalid inputs —
the verdict's outcome is REJECTED (so in particular never APPROVED and
never TIMEOUT). -/
theorem cli_interrupted_rejects (request : ApprovalRequest) (t : Nat)
    (events : List PromptEvent)
    (h : ∀ e ∈ events, nondecisive e = true) :
    (CLIApprovalBackend.request_approval request t events).result =
      ApprovalResult.REJECTED := by
  induction events with
  | nil => rfl
  | cons e rest ih =>
    have hrest : ∀ x ∈ rest, nondecisive x = true :=
      fun x hx => h x (List.mem_cons_of_mem _ hx)
    cases e with
    | interrupt => rfl
    | enter =>
      have he := h PromptEvent.enter (List.mem_cons_self _ _)
      simp [nondecisive] at he
    | text s =>
      have hs := h (PromptEvent.text s) (List.mem_cons_self _ _)
      simp only [nondecisive, Bool.and_eq_true, bne_iff_ne, ne_eq] at hs
      obtain ⟨hy, hn⟩ := hs
      by_cases hd : s = "d"
      · subst hd
        simp only [CLIApprovalBackend.request_approval]
        simpa using ih hrest
      · simp only [CLIApprovalBackend.request_approval, hy, hn, hd,
          or_self, if_false]
        exact ih hrest

/-- Witness for C3: a show-details answer followed by a
KeyboardInterrupt resolves to REJECTED. -/
theorem cli_interrupted_rejects_witness :
    (CLIApprovalBackend.request_approval
        ⟨"shell_tool", "Execute shell command", [("command", "dir")], 2,
          "", "critical"⟩ 0
        [PromptEvent.text "d", PromptEvent.interrupt]).result =
      ApprovalResult.REJECTED :=
  cli_interrupted_rejects
    ⟨"shell_tool", "Execute shell command", [("command", "dir")], 2, "",
      "critical"⟩ 0
    [PromptEvent.text "d", PromptEvent.interrupt] (by decide)

/-- C2: whenever the `requests` import succeeds, the Slack backend's
verdict is exactly the one produced by the CLI backend on the same
request — both when the webhook send raises (logged, then CLI fallback)
and when it succeeds (notify, then resolve locally via CLI, with or
without a bot token) — never a default APPROVED of its own. -/
theorem slack_backend_resolves_via_cli (webhook_url : String)
    (slack_token : Option String) (sendOk : Bool)
    (request : ApprovalRequest) (t : Nat) (events : List PromptEvent) :
    SlackApprovalBackend.request_approval webhook_url slack_token true
        sendOk request t events =
      CLIApprovalBackend.request_approval request t events := by
  unfold SlackApprovalBackend.request_approval
  cases sendOk <;> cases slack_token <;> simp

/-- C4: with the AUTO_APPROVE backend variant, `request_approval` returns
APPROVED attributed to "system" immediately, for every input and every
policy configuration; the empty trace shows that no risk classification,
no policy evaluation, no custom-approver call and no backend call is
performed. -/
theorem auto_approve_bypasses_everything
    (require_approval_for : Option (List String)) (min_risk_level : String)
    (custom_approver :
      Option (ApprovalRequest → Except String ApprovalResponse))
    (approver : ApprovalRequest → ApprovalResponse)
    (tool_name tool_description : String)
    (parameters : List (String × String)) (step_number : Nat)
    (context : String) (t : Nat) :
    HITLApprovalService.request_approval
        ⟨ApprovalBackend.AUTO_APPROVE, require_approval_for, min_risk_level,
          custom_approver, approver⟩
        tool_name tool_description parameters step_number context t =
      ⟨ApprovalResult.APPROVED, "Auto-approved", "system", t⟩ ∧
    HITLApprovalService.request_approvalTrace
        ⟨ApprovalBackend.AUTO_APPROVE, require_approval_for, min_risk_level,
          custom_approver, approver⟩
        tool_name tool_description parameters step_number context t =
      (⟨ApprovalResult.APPROVED, "Auto-approved", "system", t⟩, []) :=
  ⟨rfl, rfl⟩

/-- C5: on a non-AUTO_APPROVE backend, when the policy does not require
consultation the gateway auto-approves as "system" with the message
"Auto-approved (low risk)" — distinct from the AUTO_APPROVE path's
"Auto-approved" — and its trace shows neither a custom-approver call nor
a backend call; when the policy does require consultation and no custom
approver is configured, the backend is invoked exactly once. -/
theorem below_threshold_auto_approval (svc : HITLApprovalService)
    (tool_name tool_description : String)
    (parameters : List (String × String)) (step_number : Nat)
    (context : String) (t : Nat)
    (hb : svc.backend ≠ ApprovalBackend.AUTO_APPROVE) :
    (svc.requires_approval tool_name (get_tool_risk_level tool_name) =
        false →
      svc.request_approvalTrace tool_name tool_description parameters
          step_number context t =
        (⟨ApprovalResult.APPROVED, "Auto-approved (low risk)", "system", t⟩,
          [GateEvent.classify tool_name (get_tool_risk_level tool_name),
            GateEvent.policyCheck false]) ∧
      ("Auto-approved (low risk)" : String) ≠ "Auto-approved") ∧
    (svc.requires_approval tool_name (get_tool_risk_level tool_name) =
        true →
      svc.custom_approver = none →
      (svc.request_approvalTrace tool_name tool_description parameters
          step_number context t).2.count GateEvent.backendCall = 1) := by
  constructor
  · intro hreq
    refine ⟨?_, by decide⟩
    unfold HITLApprovalService.request_approvalTrace
    simp [hb, hreq]
  · intro hreq hc
    unfold HITLApprovalService.request_approvalTrace
    simp [hb, hreq, hc]

/-- A CLI-backed service with threshold "high", no explicit set and no
custom approver; its backend decide function is the CLI backend reading an
operator who presses Enter. -/
def svcCLI : HITLApprovalService :=
  ⟨ApprovalBackend.CLI, none, "high", none,
    fun request =>
      CLIApprovalBackend.request_approval request 0 [PromptEvent.enter]⟩

/-- Witness for C5: `scroll_tool` (tier low) is auto-approved below the
"high" threshold with an empty-of-calls trace, and `shell_tool` (tier
critical) drives exactly one backend call. -/
theorem below_threshold_auto_approval_witness :
    svcCLI.request_approvalTrace "scroll_tool" "scroll page" [] 1 "" 0 =
      (⟨ApprovalResult.APPROVED, "Auto-approved (low risk)", "system", 0⟩,
        [GateEvent.classify "scroll_tool" "low",
          GateEvent.policyCheck false]) ∧
    (svcCLI.request_approvalTrace "shell_tool" "run cmd"
        [("command", "dir")] 2 "" 0).2.count GateEvent.backendCall = 1 :=
  ⟨((below_threshold_auto_approval svcCLI "scroll_tool" "scroll page" [] 1
        "" 0 (by decide)).1 (by decide)).1,
   (below_threshold_auto_approval svcCLI "shell_tool" "run cmd"
        [("command", "dir")] 2 "" 0 (by decide)).2 (by decide) rfl⟩

/-- C1: on a consultation-requiring request with a custom approver
configured, the gateway invokes the callback first; if the callback
returns normally its verdict is returned unmodified and the backend is
never consulted (no `backendCall` in the trace), and if the callback
raises, the exception is swallowed and the verdict is exactly the
configured backend's — the trace shows the custom call strictly before
the backend call, and no implicit APPROVED is produced. -/
theorem custom_approver_precedence (svc : HITLApprovalService)
    (f : ApprovalRequest → Except String ApprovalResponse)
    (tool_name tool_description : String)
    (parameters : List (String × String)) (step_number : Nat)
    (context : String) (t : Nat)
    (hb : svc.backend ≠ ApprovalBackend.AUTO_APPROVE)
    (hc : svc.custom_approver = some f)
    (hreq : svc.requires_approval tool_name (get_tool_risk_level tool_name) =
      true) :
    (∀ resp,
      f ⟨tool_name, tool_description, parameters, step_number, context,
          get_tool_risk_level tool_name⟩ = Except.ok resp →
      svc.request_approvalTrace tool_name tool_description parameters
          step_number context t =
        (resp,
          [GateEvent.classify tool_name (get_tool_risk_level tool_name),
            GateEvent.policyCheck true, GateEvent.customCall])) ∧
    (∀ errMsg,
      f ⟨tool_name, tool_description, parameters, step_number, context,
          get_tool_risk_level tool_name⟩ = Except.error errMsg →
      svc.request_approvalTrace tool_name tool_description parameters
          step_number context t =
        (svc.approver
            ⟨tool_name, tool_description, parameters, step_number, context,
              get_tool_risk_level tool_name⟩,
          [GateEvent.classify tool_name (get_tool_risk_level tool_name),
            GateEvent.policyCheck true, GateEvent.customCall,
            GateEvent.backendCall])) := by
  constructor <;> intro x hx <;>
    (unfold HITLApprovalService.request_approvalTrace; simp [hb, hreq, hc, hx])

/-- A custom approver that answers shell_tool with an explicit rejection
and raises on everything else. -/
def customReject : ApprovalRequest → Except String ApprovalResponse :=
  fun request =>
    if request.tool_name = "shell_tool" then
      Except.ok
        ⟨ApprovalResult.REJECTED, "Shell commands not allowed",
          "custom_policy", 0⟩
    else Except.error "custom approver exploded"

/-- A CLI-backed service with threshold "low" and `customReject` as its
custom approver. -/
def svcCustom : HITLApprovalService :=
  ⟨ApprovalBackend.CLI, none, "low", some customReject,
    fun request =>
      CLIApprovalBackend.request_approval request 0 [PromptEvent.enter]⟩

/-- Witness for C1: the callback's REJECTED verdict on shell_tool is
returned unmodified and the trace ends at the custom call. -/
theorem custom_approver_precedence_witness :
    svcCustom.request_approvalTrace "shell_tool" "Execute shell command"
        [("command", "dir")] 1 "" 0 =
      (⟨ApprovalResult.REJECTED, "Shell commands not allowed",
          "custom_policy", 0⟩,
        [GateEvent.classify "shell_tool" "critical",
          GateEvent.policyCheck true, GateEvent.customCall]) :=
  (custom_approver_precedence svcCustom customReject "shell_tool"
      "Execute shell command" [("command", "dir")] 1 "" 0 (by decide) rfl
      (by decide)).1
    ⟨ApprovalResult.REJECTED, "Shell commands not allowed", "custom_policy",
      0⟩ rfl

/-- C9 (amended): with an HITL service configured and the tool found, a
REJECTED verdict aborts execution with is_success false and the verdict's
message surfaced inside the failure reason, a TIMEOUT verdict aborts with
is_success false and the fixed reason "Tool execution approval timed out"
(the verdict's own message is not surfaced there), and an APPROVED verdict
proceeds to invoke the tool; in the first two cases the result is a
constant that does not depend on the tool's `run` function, so the tool is
never invoked. -/
theorem registry_execute_gate (reg : Registry) (tool : Tool)
    (svc : HITLApprovalService) (tool_name : String)
    (kwargs : List (String × String)) (step_number t : Nat)
    (hfind : reg.tools.reverse.find? (fun tl => tl.name == tool_name) =
      some tool)
    (hsvc : reg.hitl_service = some svc) :
    ((svc.request_approval tool_name tool.description kwargs step_number
          ("Agent requesting to execute " ++ tool_name) t).result =
        ApprovalResult.REJECTED →
      reg.execute tool_name kwargs step_number t =
        ⟨false, none,
          some ("Tool execution rejected by human approval: " ++
            (svc.request_approval tool_name tool.description kwargs
              step_number ("Agent requesting to execute " ++ tool_name)
              t).message)⟩) ∧
    ((svc.request_approval tool_name tool.description kwargs step_number
          ("Agent requesting to execute " ++ tool_name) t).result =
        ApprovalResult.TIMEOUT →
      reg.execute tool_name kwargs step_number t =
        ⟨false, none, some "Tool execution approval timed out"⟩) ∧
    ((svc.request_approval tool_name tool.description kwargs step_number
          ("Agent requesting to execute " ++ tool_name) t).result =
        ApprovalResult.APPROVED →
      reg.execute tool_name kwargs step_number t = runTool tool kwargs) := by
  unfold Registry.execute
  rw [hfind, hsvc]
  refine ⟨?_, ?_, ?_⟩ <;> intro h <;> simp [h]

/-- A tool whose invocation succeeds with content "ran". -/
def cxTool : Tool :=
  ⟨"shell_tool", "Execute shell command", fun _ => Except.ok "ran"⟩

/-- A custom approver producing a TIMEOUT verdict with its own message. -/
def timeoutApprover : ApprovalRequest → Except String ApprovalResponse :=
  fun _ =>
    Except.ok ⟨ApprovalResult.TIMEOUT, "operator went home", "human", 0⟩

/-- A service whose decision on shell_tool is `timeoutApprover`'s TIMEOUT
verdict. -/
def cxService : HITLApprovalService :=
  ⟨ApprovalBackend.CLI, none, "high", some timeoutApprover,
    fun request => CLIApprovalBackend.request_approval request 0 []⟩

/-- A registry holding `cxTool`, gated by `cxService`. -/
def cxRegistry : Registry := ⟨[cxTool], some cxService⟩

/-- Counterexample to C9 as stated: on a TIMEOUT verdict whose message is
"operator went home", `Registry.execute` returns the fixed failure reason
"Tool execution approval timed out", which does not contain the verdict's
message — so the verdict's message is not surfaced as the failure reason
in the TIMEOUT case. -/
theorem registry_timeout_message_not_surfaced :
    (cxService.request_approval "shell_tool" "Execute shell command" [] 2
        ("Agent requesting to execute " ++ "shell_tool") 0).result =
      ApprovalResult.TIMEOUT ∧
    (cxService.request_approval "shell_tool" "Execute shell command" [] 2
        ("Agent requesting to execute " ++ "shell_tool") 0).message =
      "operator went home" ∧
    cxRegistry.execute "shell_tool" [] 2 0 =
      ⟨false, none, some "Tool execution approval timed out"⟩ ∧
    ¬ List.IsInfix "operator went home".data
        "Tool execution approval timed out".data := by
  refine ⟨rfl, rfl, rfl, by decide⟩

/-- Witness for the amended C9 at the concrete TIMEOUT run. -/
theorem registry_execute_gate_witness :
    cxRegistry.execute "shell_tool" [] 2 0 =
      ⟨false, none, some "Tool execution approval timed out"⟩ :=
  (registry_execute_gate cxRegistry cxTool cxService "shell_tool" [] 2 0
      rfl rfl).2.1 rfl

end WindowsUse
